import Mathlib

/-- Error kinds surfaced by the connection layer (design section 7). -/
inductive VcxErrorKind where
  | invalidHandle
  | invalidConnectionHandle
  | invalidJson
  | invalidState
  | notReady
  | createConnection
  | deleteConnection
  | actionNotSupported
  | ioError
  | agencyFailure
  | cryptoFailure
  | didDocInvalid
  | threadIdMismatch
  deriving DecidableEq, Repr

deriving instance DecidableEq for Except

/-- Rust VcxResult modelled as Except over the error kinds. -/
abbrev VcxResult (α : Type) : Type := Except VcxErrorKind α

/-- Models the Rust combinator res.or(Err(e)): an Ok value passes through, every error is replaced by e. -/
def exceptOrErr {α : Type} (r : VcxResult α) (e : VcxErrorKind) : VcxResult α :=
  match r with
  | .ok a => .ok a
  | .error _ => .error e

/-- Models the Rust combinator res.and(other): when res is Ok the second result is returned, otherwise the first error is kept. In Rust the argument is evaluated eagerly, before the choice is made, so callers of this model run the effect producing other unconditionally. -/
def exceptAnd {α β : Type} (r : VcxResult α) (other : VcxResult β) : VcxResult β :=
  match r with
  | .ok _ => other
  | .error e => .error e

/-- AgentInfo: pairwise identifiers of this side plus mediator credentials (design section 3). -/
structure AgentInfo where
  pw_did : String
  pw_vk : String
  agent_did : String
  agent_vk : String
  deriving DecidableEq, Repr

/-- Modelled from the spec: a public key entry of a DidDoc (section 3); the DidDoc type lives outside src. -/
structure DdPublicKey where
  id : String
  typ : String
  controller : String
  base58_key : String
  deriving DecidableEq, Repr

/-- Modelled from the spec: an authentication entry of a DidDoc (section 3). -/
structure DdAuthentication where
  typ : String
  public_key_ref : String
  deriving DecidableEq, Repr

/-- Modelled from the spec: a service entry of a DidDoc (section 3). -/
structure DdService where
  id : String
  typ : String
  priority : Nat
  recipient_keys : List String
  routing_keys : List String
  service_endpoint : String
  deriving DecidableEq, Repr

/-- Modelled from the spec: DidDoc (section 3). -/
structure DidDoc where
  id : String
  public_key : List DdPublicKey
  authentication : List DdAuthentication
  service : List DdService
  deriving DecidableEq, Repr

/-- Modelled from the spec: DidDoc.validate (the validator lives outside src). It enforces the invariants of sections 3 and 4.3: at least one service, at least one recipient key on each service, a non-empty endpoint, and every authentication reference resolving to a listed public key. -/
def DidDoc.validate (doc : DidDoc) : VcxResult Unit :=
  if doc.service.isEmpty then .error .didDocInvalid
  else if doc.service.any (fun s => s.recipient_keys.isEmpty) then .error .didDocInvalid
  else if doc.service.any (fun s => s.service_endpoint.isEmpty) then .error .didDocInvalid
  else if doc.authentication.any (fun a => doc.public_key.all (fun k => k.id != a.public_key_ref)) then
    .error .didDocInvalid
  else .ok ()

/-- Invitation message (design section 3). -/
structure Invitation where
  id : String
  label : String
  recipient_keys : List String
  routing_keys : List String
  service_endpoint : String
  profile_url : Option String
  deriving DecidableEq, Repr

/-- Connection payload of a Request: the sender DID and its DidDoc (design section 3). -/
structure ConnectionData where
  did : String
  did_doc : DidDoc
  deriving DecidableEq, Repr

/-- Request message (design section 3). -/
structure Request where
  id : String
  label : String
  connection : ConnectionData
  deriving DecidableEq, Repr

/-- Response payload under construction; mirrors the builder chain used in handle_connection_request. -/
structure Response where
  id : String
  thread_id : Option String
  did : String
  service_endpoint : String
  recipient_keys : List String
  routing_keys : List String
  please_ack : Bool
  deriving DecidableEq, Repr

/-- Modelled from the spec: Response.create() builds an empty response (the message type lives outside src). -/
def Response.create : Response :=
  { id := "", thread_id := none, did := "", service_endpoint := ""
    recipient_keys := [], routing_keys := [], please_ack := false }

/-- Builder step used in handle_connection_request. -/
def Response.set_did (r : Response) (did : String) : Response :=
  { r with did := did }

/-- Builder step used in handle_connection_request. -/
def Response.set_service_endpoint (r : Response) (endpoint : String) : Response :=
  { r with service_endpoint := endpoint }

/-- Builder step used in handle_connection_request. -/
def Response.set_keys (r : Response) (recipient routing : List String) : Response :=
  { r with recipient_keys := recipient, routing_keys := routing }

/-- Builder step used in handle_connection_request. -/
def Response.ask_for_ack (r : Response) : Response :=
  { r with please_ack := true }

/-- Builder step used in handle_connection_request: bind the thread id. -/
def Response.set_thread_id (r : Response) (thid : String) : Response :=
  { r with thread_id := some thid }

/-- Modelled from the spec: a SignedResponse is the response payload together with the verkey that signed it; the Ed25519 signature itself is kept symbolic (section 6). -/
structure SignedResponse where
  response : Response
  signer : String
  deriving DecidableEq, Repr

/-- Decrypted agent-to-agent message, restricted to the constructors this development inspects. -/
inductive A2AMessage where
  | connectionResponse (response : SignedResponse)
  | generic (tag : String)
  deriving DecidableEq, Repr

/-- Inviter Invited state, from src aries/handlers/connection/inviter/states/invited.rs. -/
structure InvitedState where
  invitation : Invitation
  deriving DecidableEq, Repr

/-- Inviter Responded state, as built by the From impl in src aries/handlers/connection/inviter/states/invited.rs. -/
structure RespondedState where
  response : SignedResponse
  did_doc : DidDoc
  prev_agent_info : AgentInfo
  deriving DecidableEq, Repr

/-- Inviter side state object (design section 3). -/
inductive InviterSmState where
  | null
  | invited (state : InvitedState)
  | responded (state : RespondedState)
  | completed (did_doc : DidDoc) (thread_id : Option String)
  deriving DecidableEq, Repr

/-- Invitee side state object (design section 3). -/
inductive InviteeSmState where
  | null
  | invited (invitation : Invitation)
  | requested (request : Request) (did_doc : DidDoc)
  | completed (did_doc : DidDoc) (thread_id : Option String)
  deriving DecidableEq, Repr

/-- Role-tagged state object, as serialized in snapshots. -/
inductive SmConnectionState where
  | inviter (state : InviterSmState)
  | invitee (state : InviteeSmState)
  deriving DecidableEq, Repr

/-- Modelled from the spec: the Connection facade record (section 3); the facade type itself lives outside src. -/
structure Connection where
  source_id : String
  agent_info : AgentInfo
  state_object : SmConnectionState
  bootstrap_agent_info : Option AgentInfo
  deriving DecidableEq, Repr

/-- Modelled from the spec: state code of an inviter state (section 4.6). -/
def InviterSmState.code : InviterSmState → Nat
  | .null => 1
  | .invited _ => 2
  | .responded _ => 3
  | .completed _ _ => 4

/-- Modelled from the spec: state code of an invitee state (section 4.6 and seed scenario 2). -/
def InviteeSmState.code : InviteeSmState → Nat
  | .null => 1
  | .invited _ => 2
  | .requested _ _ => 2
  | .completed _ _ => 4

/-- Modelled from the spec: the Connection state() wire code (section 4.6). -/
def Connection.state (c : Connection) : Nat :=
  match c.state_object with
  | .inviter s => s.code
  | .invitee s => s.code

/-- Modelled from the spec: a fresh connection starts as Inviter in Null (section 3 lifecycle). -/
def Connection.create (source_id : String) : Connection :=
  { source_id := source_id
    agent_info := { pw_did := "", pw_vk := "", agent_did := "", agent_vk := "" }
    state_object := .inviter .null
    bootstrap_agent_info := none }

/-- Modelled from the spec: is_in_null_state holds when the state object is Null for either role (section 4.8 step 2). -/
def Connection.is_in_null_state (c : Connection) : Bool :=
  match c.state_object with
  | .inviter .null => true
  | .invitee .null => true
  | _ => false

/-- Modelled from the spec: the JSON rendering of an Invitation, kept as a simple injective rendering. -/
def serializeInvitation (invitation : Invitation) : String :=
  invitation.id ++ ";" ++ invitation.label ++ ";" ++ invitation.service_endpoint

/-- Modelled from the spec: get_invite_details on the facade returns the serialized Invitation, or none when the connection does not hold one yet (section 4.6). -/
def Connection.get_invite_details (c : Connection) : Option String :=
  match c.state_object with
  | .inviter (.invited s) => some (serializeInvitation s.invitation)
  | .invitee (.invited invitation) => some (serializeInvitation invitation)
  | _ => none

/-- Modelled from the spec: Connection.from_parts rebuilds a connection from the snapshot triple (sections 3 and 6); the bootstrap agent is not part of the snapshot. -/
def Connection.from_parts (source_id : String) (agent_info : AgentInfo) (state : SmConnectionState) : Connection :=
  { source_id := source_id, agent_info := agent_info, state_object := state
    bootstrap_agent_info := none }

/-- Into impl of src connection.rs: a connection decomposes into (state_object, agent_info, source_id). -/
def Connection.into_parts (c : Connection) : SmConnectionState × AgentInfo × String :=
  (c.state_object, c.agent_info, c.source_id)

/-- Modelled from the spec: recipient_keys() of an agent is the singleton of its pairwise verkey (section 4.2). -/
def AgentInfo.recipient_keys (ai : AgentInfo) : List String :=
  [ai.pw_vk]

/-- Observable external side effects, recorded in order of execution. -/
inductive Effect where
  | createAgent (prev : AgentInfo)
  | encoded (response : Response) (signer_vk : String)
  | sent (sender : AgentInfo) (message : A2AMessage) (target : DidDoc)
  | polledMain (agent : AgentInfo)
  | polledBootstrap (agent : AgentInfo) (expected_sender_vk : String)
  | applied (message : A2AMessage)
  | acked (agent : AgentInfo) (uid : String)
  | deletedAgencyAgent
  deriving DecidableEq, Repr

/-- External collaborators (agency client, crypto, the full state machine dispatch): each call is a parameter, so theorems quantify over their success and failure. -/
structure Env where
  create_agent : AgentInfo → VcxResult AgentInfo
  agency_endpoint : AgentInfo → VcxResult String
  routing_keys : AgentInfo → VcxResult (List String)
  encode : Response → String → VcxResult Unit
  send_message : AgentInfo → A2AMessage → DidDoc → VcxResult Unit
  get_messages_noauth : AgentInfo → VcxResult (List (String × A2AMessage))
  get_messages : AgentInfo → String → VcxResult (List (String × A2AMessage))
  update_message_status : AgentInfo → String → VcxResult Unit
  find_message_to_handle : Connection → List (String × A2AMessage) → Option (String × A2AMessage)
  update_state_with_message : Connection → A2AMessage → VcxResult Connection
  remote_vk : Connection → VcxResult String
  delete : Connection → VcxResult Unit

/-- InvitedState::handle_connection_request from src aries/handlers/connection/inviter/states/invited.rs: validate the DidDoc, provision a new agent, build the response from the new keys, sign it with the previous pairwise verkey, bind the thread id to the request id, and send it via the new agent; every fallible step aborts the function with its error. The second component records the side effects that were executed. -/
def InvitedState.handle_connection_request (_state : InvitedState) (env : Env) (request : Request)
    (agent_info : AgentInfo) : VcxResult (SignedResponse × AgentInfo) × List Effect :=
  match request.connection.did_doc.validate with
  | .error e => (.error e, [])
  | .ok _ =>
    let prev_agent_info := agent_info
    match env.create_agent agent_info with
    | .error e => (.error e, [.createAgent agent_info])
    | .ok new_agent_info =>
      match env.agency_endpoint new_agent_info with
      | .error e => (.error e, [.createAgent agent_info])
      | .ok endpoint =>
        match env.routing_keys new_agent_info with
        | .error e => (.error e, [.createAgent agent_info])
        | .ok routing =>
          let response :=
            (((Response.create.set_did new_agent_info.pw_did).set_service_endpoint
                endpoint).set_keys new_agent_info.recipient_keys routing).ask_for_ack
          let threaded := response.set_thread_id request.id
          match env.encode threaded prev_agent_info.pw_vk with
          | .error e => (.error e, [.createAgent agent_info])
          | .ok _ =>
            let signed_response : SignedResponse := { response := threaded, signer := prev_agent_info.pw_vk }
            let message := A2AMessage.connectionResponse signed_response
            match env.send_message new_agent_info message request.connection.did_doc with
            | .error e =>
              (.error e,
                [.createAgent agent_info, .encoded threaded prev_agent_info.pw_vk,
                  .sent new_agent_info message request.connection.did_doc])
            | .ok _ =>
              (.ok (signed_response, new_agent_info),
                [.createAgent agent_info, .encoded threaded prev_agent_info.pw_vk,
                  .sent new_agent_info message request.connection.did_doc])

/-- From impl in src aries/handlers/connection/inviter/states/invited.rs: RespondedState keeps the signed response, the counterparty DidDoc of the request, and the previous agent info. -/
def RespondedState.from_invited (_state : InvitedState) (request : Request) (response : SignedResponse)
    (prev_agent_info : AgentInfo) : RespondedState :=
  { response := response, did_doc := request.connection.did_doc, prev_agent_info := prev_agent_info }

/-- Modelled from the spec: the inviter state machine step on an inbound Request in Invited (section 4.4); the dispatch itself lives outside src. A successful handle_connection_request commits Responded through the From impl, keeping the pre-rotation agent info; a failed handle yields no Responded state. -/
def inviterProcessRequest (env : Env) (state : InvitedState) (request : Request) (agent_info : AgentInfo) :
    Option RespondedState × List Effect :=
  match state.handle_connection_request env request agent_info with
  | (.ok (response, _new_agent_info), trace) =>
    (some (RespondedState.from_invited state request response agent_info), trace)
  | (.error _, trace) => (none, trace)

/-- Association-list lookup for the handle store. -/
def storeLookup {α : Type} (h : Nat) : List (Nat × α) → Option α
  | [] => none
  | (k, v) :: rest => if h = k then some v else storeLookup h rest

/-- Write-back of a mutated object under its handle. -/
def storeUpdate {α : Type} (h : Nat) (c : α) : List (Nat × α) → List (Nat × α)
  | [] => []
  | (k, v) :: rest => if h = k then (k, c) :: storeUpdate h c rest else (k, v) :: storeUpdate h c rest

/-- Removal of a handle from the store. -/
def storeRemove {α : Type} (h : Nat) : List (Nat × α) → List (Nat × α)
  | [] => []
  | (k, v) :: rest => if h = k then storeRemove h rest else (k, v) :: storeRemove h rest

/-- Modelled from the spec: the handle cache (section 4.7); object_cache.rs lives outside src. -/
structure ObjectCache (α : Type) where
  store : List (Nat × α)
  next : Nat
  deriving DecidableEq, Repr

/-- Modelled from the spec: add stores the object under a fresh handle (section 4.7). -/
def ObjectCache.add {α : Type} (cache : ObjectCache α) (c : α) : Nat × ObjectCache α :=
  (cache.next, { store := (cache.next, c) :: cache.store, next := cache.next + 1 })

/-- Modelled from the spec: get runs the callback on the stored object, propagates its error, and reports InvalidHandle on an unknown handle (section 4.7). -/
def ObjectCache.get {α β : Type} (cache : ObjectCache α) (h : Nat) (f : α → VcxResult β) : VcxResult β :=
  match storeLookup h cache.store with
  | none => .error .invalidHandle
  | some c => f c

/-- Modelled from the spec: release drops the entry, failing with InvalidHandle on an unknown handle (section 4.7). -/
def ObjectCache.release {α : Type} (cache : ObjectCache α) (h : Nat) : VcxResult Unit × ObjectCache α :=
  match storeLookup h cache.store with
  | none => (.error .invalidHandle, cache)
  | some _ => (.ok (), { cache with store := storeRemove h cache.store })

/-- Modelled from the spec: drain drops every entry (section 4.7). -/
def ObjectCache.drain {α : Type} (cache : ObjectCache α) : ObjectCache α :=
  { cache with store := [] }

/-- The process-wide connection cache type. -/
abbrev ConnCache : Type := ObjectCache Connection

/-- get_state from src connection.rs: reads the state code through the cache and turns any failure into 0. -/
def get_state (cache : ConnCache) (h : Nat) : Nat :=
  match ObjectCache.get cache h (fun connection => .ok connection.state) with
  | .ok n => n
  | .error _ => 0

/-- The code number of error SUCCESS in the legacy error table. -/
def SUCCESS : Nat := 0

/-- release from src connection.rs: any cache failure becomes InvalidConnectionHandle. -/
def connection_release (cache : ConnCache) (h : Nat) : VcxResult Unit × ConnCache :=
  let r := cache.release h
  (exceptOrErr r.1 .invalidConnectionHandle, r.2)

/-- release_all from src connection.rs: drain the cache, discarding the result. -/
def release_all (cache : ConnCache) : ConnCache :=
  cache.drain

/-- get_invite_details from src connection.rs: the closure maps a missing invitation to ActionNotSupported, and the trailing or-combinator then replaces any error, including that one, with InvalidConnectionHandle. -/
def connection_get_invite_details (cache : ConnCache) (h : Nat) : VcxResult String :=
  exceptOrErr
    (ObjectCache.get cache h (fun connection =>
      match connection.get_invite_details with
      | some s => .ok s
      | none => .error .actionNotSupported))
    .invalidConnectionHandle

/-- The V1 snapshot envelope of (data, state, source_id) used by to_string and from_string; the serde JSON text is modelled by the envelope value it denotes. -/
inductive SerializableObjectWithState where
  | v1 (data : AgentInfo) (state : SmConnectionState) (source_id : String)
  deriving DecidableEq, Repr

/-- to_string from src connection.rs: decompose the connection through the Into impl and wrap the triple in the V1 envelope. -/
def connection_to_string (cache : ConnCache) (h : Nat) : VcxResult SerializableObjectWithState :=
  ObjectCache.get cache h (fun connection =>
    let parts := connection.into_parts
    .ok (.v1 parts.2.1 parts.1 parts.2.2))

/-- from_string from src connection.rs: decode the envelope and add the rebuilt connection to the cache, yielding a fresh handle. -/
def connection_from_string (cache : ConnCache) (object : SerializableObjectWithState) : Nat × ConnCache :=
  match object with
  | .v1 data state source_id => cache.add (Connection.from_parts source_id data state)

/-- get_bootstrap_agent_messages from src connection.rs: a failing remote_vk or an absent bootstrap agent aborts cleanly with Ok none; otherwise the bootstrap inbox is fetched authenticated against the expected sender verkey. -/
def get_bootstrap_agent_messages (env : Env) (remote_vk : VcxResult String)
    (bootstrap_agent_info : Option AgentInfo) :
    VcxResult (Option ((List (String × A2AMessage)) × AgentInfo)) × List Effect :=
  match remote_vk with
  | .error _ => (.ok none, [])
  | .ok expected_sender_vk =>
    match bootstrap_agent_info with
    | some agent =>
      match env.get_messages agent expected_sender_vk with
      | .error e => (.error e, [.polledBootstrap agent expected_sender_vk])
      | .ok messages => (.ok (some (messages, agent)), [.polledBootstrap agent expected_sender_vk])
    | none => (.ok none, [])

/-- Body of update_state from src connection.rs, the closure passed to get_mut: a null state is a no-op; otherwise poll the main agent, apply and ack the picked message; an Inviter with nothing to handle falls back to the bootstrap agent. The connection returned is the one left in the cache. -/
def update_state_body (env : Env) (connection : Connection) :
    VcxResult Nat × Connection × List Effect :=
  if connection.is_in_null_state then (.ok SUCCESS, connection, [])
  else
    match env.get_messages_noauth connection.agent_info with
    | .error e => (.error e, connection, [.polledMain connection.agent_info])
    | .ok messages =>
      match env.find_message_to_handle connection messages with
      | some (uid, message) =>
        match env.update_state_with_message connection message with
        | .error e => (.error e, connection, [.polledMain connection.agent_info, .applied message])
        | .ok connection2 =>
          match env.update_message_status connection2.agent_info uid with
          | .error e =>
            (.error e, connection2,
              [.polledMain connection.agent_info, .applied message, .acked connection2.agent_info uid])
          | .ok _ =>
            (.ok SUCCESS, connection2,
              [.polledMain connection.agent_info, .applied message, .acked connection2.agent_info uid])
      | none =>
        match connection.state_object with
        | .inviter _ =>
          match get_bootstrap_agent_messages env (env.remote_vk connection) connection.bootstrap_agent_info with
          | (.error e, tr) => (.error e, connection, .polledMain connection.agent_info :: tr)
          | (.ok none, tr) => (.ok SUCCESS, connection, .polledMain connection.agent_info :: tr)
          | (.ok (some (messages2, bootstrap_agent)), tr) =>
            match env.find_message_to_handle connection messages2 with
            | some (uid, message) =>
              match env.update_state_with_message connection message with
              | .error e =>
                (.error e, connection, .polledMain connection.agent_info :: tr ++ [.applied message])
              | .ok connection2 =>
                match env.update_message_status bootstrap_agent uid with
                | .error e =>
                  (.error e, connection2,
                    .polledMain connection.agent_info :: tr ++ [.applied message, .acked bootstrap_agent uid])
                | .ok _ =>
                  (.ok SUCCESS, connection2,
                    .polledMain connection.agent_info :: tr ++ [.applied message, .acked bootstrap_agent uid])
            | none => (.ok SUCCESS, connection, .polledMain connection.agent_info :: tr)
        | .invitee _ => (.ok SUCCESS, connection, [.polledMain connection.agent_info])

/-- update_state from src connection.rs, run through get_mut: the possibly mutated connection is written back under its handle. -/
def connection_update_state (env : Env) (cache : ConnCache) (h : Nat) :
    VcxResult Nat × ConnCache × List Effect :=
  match storeLookup h cache.store with
  | none => (.error .invalidHandle, cache, [])
  | some connection =>
    let step := update_state_body env connection
    (step.1, { cache with store := storeUpdate h step.2.1 cache.store }, step.2.2)

/-- Modelled from the spec: the facade delete, an agency-side deprovision condensed into one external call (section 4.6). -/
def connection_delete_body (env : Env) (connection : Connection) : VcxResult Nat × Connection :=
  match env.delete connection with
  | .error e => (.error e, connection)
  | .ok _ => (.ok SUCCESS, connection)

/-- delete_connection from src connection.rs. The release argument of the and-combinator is evaluated eagerly in Rust, so the local handle is removed from the cache no matter how the agency-side delete went. -/
def delete_connection (env : Env) (cache : ConnCache) (h : Nat) : VcxResult Nat × ConnCache :=
  let step1 :=
    match storeLookup h cache.store with
    | none => ((.error .invalidHandle : VcxResult Nat), cache)
    | some connection =>
      let d := connection_delete_body env connection
      (d.1, { cache with store := storeUpdate h d.2 cache.store })
  let r2 : VcxResult Nat := exceptOrErr step1.1 .deleteConnection
  let step3 := connection_release step1.2 h
  let r4 : VcxResult Unit := exceptAnd r2 step3.1
  match r4 with
  | .ok _ => (.ok SUCCESS, step3.2)
  | .error e => (.error e, step3.2)

/-- Fixture: the bootstrap agent of the examples. -/
def aiFix : AgentInfo :=
  { pw_did := "PWDID1", pw_vk := "PWVK1", agent_did := "AGDID1", agent_vk := "AGVK1" }

/-- Fixture: the freshly provisioned agent of the examples. -/
def aiNew : AgentInfo :=
  { pw_did := "PWDID2", pw_vk := "PWVK2", agent_did := "AGDID2", agent_vk := "AGVK2" }

/-- Fixture: a DidDoc satisfying the validator. -/
def didDocOk : DidDoc :=
  { id := "did:sov:abc"
    public_key := [{ id := "did:sov:abc#1", typ := "Ed25519VerificationKey2018"
                     controller := "did:sov:abc", base58_key := "KEYB58" }]
    authentication := [{ typ := "Ed25519SignatureAuthentication2018", public_key_ref := "did:sov:abc#1" }]
    service := [{ id := "did:sov:abc;indy", typ := "IndyAgent", priority := 0
                  recipient_keys := ["KEYB58"], routing_keys := [], service_endpoint := "http://agency.example" }] }

/-- Fixture: a DidDoc with an empty service list, rejected by the validator. -/
def didDocBad : DidDoc :=
  { id := "did:sov:abc", public_key := [], authentication := [], service := [] }

/-- Fixture: an invitation. -/
def invFix : Invitation :=
  { id := "inv-id", label := "faber", recipient_keys := ["KEYB58"], routing_keys := []
    service_endpoint := "http://agency.example", profile_url := none }

/-- Fixture: the inviter Invited state carrying the invitation. -/
def invitedFix : InvitedState :=
  { invitation := invFix }

/-- Fixture: a valid connection request. -/
def reqFix : Request :=
  { id := "req-id-1", label := "alice", connection := { did := "did:sov:abc", did_doc := didDocOk } }

/-- Fixture: a request whose DidDoc fails validation. -/
def reqBad : Request :=
  { id := "req-id-2", label := "alice", connection := { did := "did:sov:abc", did_doc := didDocBad } }

/-- Fixture environment in which every collaborator succeeds. -/
def envOk : Env :=
  { create_agent := fun _ => .ok aiNew
    agency_endpoint := fun _ => .ok "http://agency.example"
    routing_keys := fun _ => .ok ["ROUTEVK"]
    encode := fun _ _ => .ok ()
    send_message := fun _ _ _ => .ok ()
    get_messages_noauth := fun _ => .ok []
    get_messages := fun _ _ => .ok []
    update_message_status := fun _ _ => .ok ()
    find_message_to_handle := fun _ messages => messages.head?
    update_state_with_message := fun c _ => .ok c
    remote_vk := fun _ => .ok "REMOTEVK"
    delete := fun _ => .ok () }

/-- Fixture environment in which only the outbound send fails. -/
def envSendFail : Env :=
  { envOk with send_message := fun _ _ _ => .error .ioError }

/-- Fixture environment with one message waiting on the bootstrap agent. -/
def envBootstrapMsg : Env :=
  { envOk with get_messages := fun _ _ => .ok [("uid1", .generic "request")] }

/-- Fixture environment in which the agency-side delete fails. -/
def envDeleteFail : Env :=
  { envOk with delete := fun _ => .error .agencyFailure }

/-- Fixture: a fresh inviter connection in Null. -/
def connNull : Connection := Connection.create "faber"

/-- Fixture: an inviter connection in Invited with a bootstrap agent. -/
def connInviterInvited : Connection :=
  { source_id := "faber", agent_info := aiFix
    state_object := .inviter (.invited invitedFix), bootstrap_agent_info := some aiFix }

/-- Fixture: an invitee connection in Invited. -/
def connInviteeInvited : Connection :=
  { source_id := "alice", agent_info := aiFix
    state_object := .invitee (.invited invFix), bootstrap_agent_info := none }

/-- Fixture cache holding the null connection at handle 1. -/
def cacheNull : ConnCache := { store := [(1, connNull)], next := 2 }

/-- Fixture cache holding the invited inviter connection at handle 1. -/
def cacheInvited : ConnCache := { store := [(1, connInviterInvited)], next := 2 }

/-- Fixture: an empty cache. -/
def cacheEmpty : ConnCache := { store := [], next := 1 }

theorem storeLookup_update_self {α : Type} (h : Nat) (c c2 : α) (store : List (Nat × α))
    (hc : storeLookup h store = some c) :
    storeLookup h (storeUpdate h c2 store) = some c2 := by
  induction store with
  | nil => simp [storeLookup] at hc
  | cons p rest ih =>
    obtain ⟨k, v⟩ := p
    by_cases hk : h = k
    · simp [storeLookup, storeUpdate, hk]
    · simp only [storeLookup, storeUpdate, if_neg hk] at hc ⊢
      exact ih hc

theorem storeLookup_update_other {α : Type} (h h2 : Nat) (c2 : α) (store : List (Nat × α))
    (hne : h2 ≠ h) :
    storeLookup h2 (storeUpdate h c2 store) = storeLookup h2 store := by
  induction store with
  | nil => simp [storeUpdate]
  | cons p rest ih =>
    obtain ⟨k, v⟩ := p
    by_cases hk : h = k
    · subst hk
      simp [storeLookup, storeUpdate, if_neg hne, ih]
    · by_cases hk2 : h2 = k
      · simp [storeLookup, storeUpdate, if_neg hk, hk2]
      · simp [storeLookup, storeUpdate, if_neg hk, if_neg hk2, ih]

theorem storeLookup_remove_self {α : Type} (h : Nat) (store : List (Nat × α)) :
    storeLookup h (storeRemove h store) = none := by
  induction store with
  | nil => simp [storeRemove, storeLookup]
  | cons p rest ih =>
    obtain ⟨k, v⟩ := p
    by_cases hk : h = k
    · subst hk
      simp [storeRemove, ih]
    · simp [storeRemove, storeLookup, if_neg hk, ih]

/-- Claim C1, counterexample: a Request whose DidDoc validates, processed in an environment where only send_message fails. The handler returns the send error, the send was attempted, and no Responded state is produced, refuting that a send failure leaves the connection advanced to Responded. -/
theorem c1_counterexample :
    reqFix.connection.did_doc.validate = .ok () ∧
    (invitedFix.handle_connection_request envSendFail reqFix aiFix).1 = .error .ioError ∧
    (inviterProcessRequest envSendFail invitedFix reqFix aiFix).1 = none ∧
    Effect.sent aiNew
        (A2AMessage.connectionResponse
          { response := { id := "", thread_id := some "req-id-1", did := "PWDID2"
                          service_endpoint := "http://agency.example"
                          recipient_keys := ["PWVK2"], routing_keys := ["ROUTEVK"], please_ack := true }
            signer := "PWVK1" })
        didDocOk ∈ (invitedFix.handle_connection_request envSendFail reqFix aiFix).2 := by
  decide

/-- Claim C1, amended: the outbound send happens before the Responded transition can commit. When every earlier step succeeds but send_message fails, handle_connection_request returns the send error, the send was attempted, and the connection does not advance to Responded; the caller is left in a position to retry the whole request handling, not the transmission alone. -/
theorem c1_send_failure_not_responded (env : Env) (state : InvitedState) (request : Request)
    (agent_info new_agent_info : AgentInfo) (endpoint : String) (routing : List String)
    (e : VcxErrorKind)
    (hval : request.connection.did_doc.validate = .ok ())
    (hcreate : env.create_agent agent_info = .ok new_agent_info)
    (hendpoint : env.agency_endpoint new_agent_info = .ok endpoint)
    (hrouting : env.routing_keys new_agent_info = .ok routing)
    (hencode : ∀ r vk, env.encode r vk = .ok ())
    (hsend : ∀ sender msg target, env.send_message sender msg target = .error e) :
    (state.handle_connection_request env request agent_info).1 = .error e ∧
    (inviterProcessRequest env state request agent_info).1 = none ∧
    ∃ msg, Effect.sent new_agent_info msg request.connection.did_doc ∈
      (state.handle_connection_request env request agent_info).2 := by
  refine ⟨?_, ?_, ?_⟩
  · simp [InvitedState.handle_connection_request, hval, hcreate, hendpoint, hrouting, hencode, hsend]
  · simp [inviterProcessRequest, InvitedState.handle_connection_request, hval, hcreate, hendpoint,
      hrouting, hencode, hsend]
  · refine ⟨A2AMessage.connectionResponse
      { response := { id := "", thread_id := some request.id, did := new_agent_info.pw_did
                      service_endpoint := endpoint
                      recipient_keys := new_agent_info.recipient_keys, routing_keys := routing
                      please_ack := true }
        signer := agent_info.pw_vk }, ?_⟩
    simp [InvitedState.handle_connection_request, hval, hcreate, hendpoint, hrouting, hencode,
      hsend, Response.create, Response.set_did, Response.set_service_endpoint, Response.set_keys,
      Response.ask_for_ack, Response.set_thread_id]

/-- Claim C2: on a validating Request with all collaborators succeeding, the handler provisions a new agent, builds the Response from the new keys, signs it with the previous pairwise verkey, binds the thread id to the Request id, sends the signed response to the Request DidDoc via the new agent, returns it paired with the new agent info, and the resulting Responded state keeps the previous agent info. -/
theorem c2_handle_connection_request_success (env : Env) (state : InvitedState) (request : Request)
    (agent_info new_agent_info : AgentInfo) (endpoint : String) (routing : List String)
    (hval : request.connection.did_doc.validate = .ok ())
    (hcreate : env.create_agent agent_info = .ok new_agent_info)
    (hendpoint : env.agency_endpoint new_agent_info = .ok endpoint)
    (hrouting : env.routing_keys new_agent_info = .ok routing)
    (hencode : ∀ r vk, env.encode r vk = .ok ())
    (hsend : ∀ sender msg target, env.send_message sender msg target = .ok ()) :
    ∃ signed : SignedResponse,
      (state.handle_connection_request env request agent_info).1 = .ok (signed, new_agent_info) ∧
      signed.signer = agent_info.pw_vk ∧
      signed.response.thread_id = some request.id ∧
      signed.response.did = new_agent_info.pw_did ∧
      signed.response.service_endpoint = endpoint ∧
      signed.response.recipient_keys = new_agent_info.recipient_keys ∧
      signed.response.routing_keys = routing ∧
      signed.response.please_ack = true ∧
      Effect.createAgent agent_info ∈ (state.handle_connection_request env request agent_info).2 ∧
      Effect.sent new_agent_info (A2AMessage.connectionResponse signed) request.connection.did_doc ∈
        (state.handle_connection_request env request agent_info).2 ∧
      (inviterProcessRequest env state request agent_info).1 =
        some { response := signed, did_doc := request.connection.did_doc
               prev_agent_info := agent_info } := by
  refine ⟨{ response := { id := "", thread_id := some request.id, did := new_agent_info.pw_did
                          service_endpoint := endpoint
                          recipient_keys := new_agent_info.recipient_keys, routing_keys := routing
                          please_ack := true }
            signer := agent_info.pw_vk }, ?_⟩
  simp [InvitedState.handle_connection_request, inviterProcessRequest, RespondedState.from_invited,
    hval, hcreate, hendpoint, hrouting, hencode, hsend, Response.create, Response.set_did,
    Response.set_service_endpoint, Response.set_keys, Response.ask_for_ack, Response.set_thread_id]

/-- Claim C2, witness: the success path evaluated on the concrete fixtures. -/
theorem c2_witness :
    ∃ signed : SignedResponse,
      (invitedFix.handle_connection_request envOk reqFix aiFix).1 = .ok (signed, aiNew) ∧
      signed.signer = aiFix.pw_vk ∧
      signed.response.thread_id = some reqFix.id ∧
      signed.response.did = aiNew.pw_did ∧
      signed.response.service_endpoint = "http://agency.example" ∧
      signed.response.recipient_keys = aiNew.recipient_keys ∧
      signed.response.routing_keys = ["ROUTEVK"] ∧
      signed.response.please_ack = true ∧
      Effect.createAgent aiFix ∈ (invitedFix.handle_connection_request envOk reqFix aiFix).2 ∧
      Effect.sent aiNew (A2AMessage.connectionResponse signed) reqFix.connection.did_doc ∈
        (invitedFix.handle_connection_request envOk reqFix aiFix).2 ∧
      (inviterProcessRequest envOk invitedFix reqFix aiFix).1 =
        some { response := signed, did_doc := reqFix.connection.did_doc
               prev_agent_info := aiFix } :=
  c2_handle_connection_request_success envOk invitedFix reqFix aiFix aiNew "http://agency.example"
    ["ROUTEVK"] (by decide) rfl rfl rfl (fun _ _ => rfl) (fun _ _ _ => rfl)

/-- Claim C1, witness for the amended statement: with the send-failing environment the handler errors out, the send was attempted, and no Responded state results. -/
theorem c1_witness :
    (invitedFix.handle_connection_request envSendFail reqFix aiFix).1 = .error .ioError ∧
    (inviterProcessRequest envSendFail invitedFix reqFix aiFix).1 = none ∧
    ∃ msg, Effect.sent aiNew msg reqFix.connection.did_doc ∈
      (invitedFix.handle_connection_request envSendFail reqFix aiFix).2 :=
  c1_send_failure_not_responded envSendFail invitedFix reqFix aiFix aiNew "http://agency.example"
    ["ROUTEVK"] .ioError (by decide) rfl rfl rfl (fun _ _ => rfl) (fun _ _ _ => rfl)

/-- Claim C3: when the DidDoc of the Request fails validation, handle_connection_request returns the validation error with an empty effect trace, so no agent is provisioned, nothing is signed, nothing is sent, and the connection does not advance to Responded. -/
theorem c3_invalid_did_doc_no_side_effects (env : Env) (state : InvitedState) (request : Request)
    (agent_info : AgentInfo) (e : VcxErrorKind)
    (hval : request.connection.did_doc.validate = .error e) :
    state.handle_connection_request env request agent_info = (.error e, []) ∧
    inviterProcessRequest env state request agent_info = (none, []) := by
  constructor
  · simp [InvitedState.handle_connection_request, hval]
  · simp [inviterProcessRequest, InvitedState.handle_connection_request, hval]

/-- Claim C3, witness: the request with an empty service list is rejected with no side effects, even in the all-succeeding environment. -/
theorem c3_witness :
    invitedFix.handle_connection_request envOk reqBad aiFix = (.error .didDocInvalid, []) ∧
    inviterProcessRequest envOk invitedFix reqBad aiFix = (none, []) :=
  c3_invalid_did_doc_no_side_effects envOk invitedFix reqBad aiFix .didDocInvalid (by decide)

/-- Claim C4: for every handle holding a connection, to_string yields an envelope, from_string of that envelope yields a fresh handle, and to_string of the new handle yields the same envelope: the triple (state_object, agent_info, source_id) survives the V1 round trip. -/
theorem c4_serialization_round_trip (cache : ConnCache) (h : Nat) (connection : Connection)
    (hc : storeLookup h cache.store = some connection) :
    ∃ object, connection_to_string cache h = .ok object ∧
      connection_to_string (connection_from_string cache object).2
        (connection_from_string cache object).1 = .ok object := by
  refine ⟨.v1 connection.agent_info connection.state_object connection.source_id, ?_, ?_⟩
  · simp [connection_to_string, ObjectCache.get, hc, Connection.into_parts]
  · simp [connection_from_string, connection_to_string, ObjectCache.add, ObjectCache.get,
      Connection.from_parts, Connection.into_parts, storeLookup]

/-- Claim C4, witness: the round trip evaluated on the fixture cache. -/
theorem c4_witness :
    ∃ object, connection_to_string cacheInvited 1 = .ok object ∧
      connection_to_string (connection_from_string cacheInvited object).2
        (connection_from_string cacheInvited object).1 = .ok object :=
  c4_serialization_round_trip cacheInvited 1 connInviterInvited rfl

/-- Claim C5: get_state is total, returning 0 on an unknown handle and the stored state code otherwise; the code is 1 for a freshly created connection (Null), 2 for Invited and Requested (after connect), 3 for an Inviter in Responded, and 4 for Completed in either role. -/
theorem c5_get_state_total (cache : ConnCache) (h : Nat) :
    (storeLookup h cache.store = none → get_state cache h = 0) ∧
    (∀ connection, storeLookup h cache.store = some connection →
      get_state cache h = connection.state) ∧
    (∀ source_id, (Connection.create source_id).state = 1) ∧
    (∀ (connection : Connection) (s : InvitedState),
      connection.state_object = .inviter (.invited s) → connection.state = 2) ∧
    (∀ (connection : Connection) (r : Request) (d : DidDoc),
      connection.state_object = .invitee (.requested r d) → connection.state = 2) ∧
    (∀ (connection : Connection) (r : RespondedState),
      connection.state_object = .inviter (.responded r) → connection.state = 3) ∧
    (∀ (connection : Connection) (d : DidDoc) (t : Option String),
      connection.state_object = .inviter (.completed d t) → connection.state = 4) ∧
    (∀ (connection : Connection) (d : DidDoc) (t : Option String),
      connection.state_object = .invitee (.completed d t) → connection.state = 4) := by
  refine ⟨?_, ?_, ?_, ?_, ?_, ?_, ?_, ?_⟩
  · intro hn
    simp [get_state, ObjectCache.get, hn]
  · intro connection hc
    simp [get_state, ObjectCache.get, hc]
  · intro source_id
    simp [Connection.create, Connection.state, InviterSmState.code]
  · intro connection s hs
    simp [Connection.state, hs, InviterSmState.code]
  · intro connection r d hs
    simp [Connection.state, hs, InviteeSmState.code]
  · intro connection r hs
    simp [Connection.state, hs, InviterSmState.code]
  · intro connection d t hs
    simp [Connection.state, hs, InviterSmState.code]
  · intro connection d t hs
    simp [Connection.state, hs, InviteeSmState.code]

/-- Claim C5, witness: an unknown handle reports 0, the fixture Invited connection reports 2, and a fresh connection reports 1. -/
theorem c5_witness :
    get_state cacheEmpty 7 = 0 ∧ get_state cacheInvited 1 = 2 ∧
    (Connection.create "faber").state = 1 := by
  refine ⟨(c5_get_state_total cacheEmpty 7).1 rfl, ?_, (c5_get_state_total cacheEmpty 7).2.2.1 "faber"⟩
  have h2 := (c5_get_state_total cacheInvited 1).2.1 connInviterInvited rfl
  have h3 := (c5_get_state_total cacheInvited 1).2.2.2.1 connInviterInvited invitedFix rfl
  rw [h2, h3]

/-- Claim C6: update_state on a connection in the Null state returns SUCCESS, records no external effect (no polling, no message consumption), and leaves every cache entry, in particular the connection itself, unchanged. -/
theorem c6_update_state_null_noop (env : Env) (cache : ConnCache) (h : Nat) (connection : Connection)
    (hc : storeLookup h cache.store = some connection)
    (hnull : connection.is_in_null_state = true) :
    (connection_update_state env cache h).1 = .ok SUCCESS ∧
    (connection_update_state env cache h).2.2 = [] ∧
    (∀ h2, storeLookup h2 (connection_update_state env cache h).2.1.store =
      storeLookup h2 cache.store) := by
  refine ⟨?_, ?_, ?_⟩
  · simp [connection_update_state, hc, update_state_body, hnull]
  · simp [connection_update_state, hc, update_state_body, hnull]
  · intro h2
    simp only [connection_update_state, hc, update_state_body, hnull, if_pos]
    by_cases he : h2 = h
    · subst he
      rw [storeLookup_update_self h2 connection connection cache.store hc, hc]
    · exact storeLookup_update_other h h2 connection cache.store he

/-- Claim C6, witness: update_state on the fixture Null connection is a no-op with success. -/
theorem c6_witness :
    (connection_update_state envOk cacheNull 1).1 = .ok SUCCESS ∧
    (connection_update_state envOk cacheNull 1).2.2 = [] ∧
    storeLookup 1 (connection_update_state envOk cacheNull 1).2.1.store = some connNull := by
  have t := c6_update_state_null_noop envOk cacheNull 1 connNull rfl rfl
  exact ⟨t.1, t.2.1, (t.2.2 1).trans (by decide)⟩

/-- Claim C7: with no message handled on the main agent, the bootstrap fallback is consulted only for an Inviter. An Invitee never reaches the bootstrap agent; an Inviter whose remote_vk fails or whose bootstrap agent is absent still returns SUCCESS without touching the bootstrap agent; otherwise the bootstrap inbox is fetched authenticated against remote_vk and a picked message is applied and then acknowledged on the bootstrap agent. -/
theorem c7_bootstrap_fallback (env : Env) (cache : ConnCache) (h : Nat) (connection : Connection)
    (messages0 : List (String × A2AMessage))
    (hc : storeLookup h cache.store = some connection)
    (hnn : connection.is_in_null_state = false)
    (hmain : env.get_messages_noauth connection.agent_info = .ok messages0)
    (hfind : env.find_message_to_handle connection messages0 = none) :
    (∀ s, connection.state_object = .invitee s →
      (connection_update_state env cache h).1 = .ok SUCCESS ∧
      (∀ agent vk, Effect.polledBootstrap agent vk ∉ (connection_update_state env cache h).2.2)) ∧
    (∀ s e, connection.state_object = .inviter s → env.remote_vk connection = .error e →
      (connection_update_state env cache h).1 = .ok SUCCESS ∧
      (∀ agent vk, Effect.polledBootstrap agent vk ∉ (connection_update_state env cache h).2.2)) ∧
    (∀ s vk, connection.state_object = .inviter s → env.remote_vk connection = .ok vk →
      connection.bootstrap_agent_info = none →
      (connection_update_state env cache h).1 = .ok SUCCESS ∧
      (∀ agent vk2, Effect.polledBootstrap agent vk2 ∉ (connection_update_state env cache h).2.2)) ∧
    (∀ s vk bootstrap_agent messages1 uid message connection2,
      connection.state_object = .inviter s → env.remote_vk connection = .ok vk →
      connection.bootstrap_agent_info = some bootstrap_agent →
      env.get_messages bootstrap_agent vk = .ok messages1 →
      env.find_message_to_handle connection messages1 = some (uid, message) →
      env.update_state_with_message connection message = .ok connection2 →
      env.update_message_status bootstrap_agent uid = .ok () →
      (connection_update_state env cache h).1 = .ok SUCCESS ∧
      (connection_update_state env cache h).2.2 =
        [.polledMain connection.agent_info, .polledBootstrap bootstrap_agent vk,
          .applied message, .acked bootstrap_agent uid] ∧
      storeLookup h (connection_update_state env cache h).2.1.store = some connection2) := by
  refine ⟨?_, ?_, ?_, ?_⟩
  · intro s hs
    constructor
    · simp [connection_update_state, hc, update_state_body, hnn, hmain, hfind, hs]
    · intro agent vk
      simp [connection_update_state, hc, update_state_body, hnn, hmain, hfind, hs]
  · intro s e hs hr
    constructor
    · simp [connection_update_state, hc, update_state_body, hnn, hmain, hfind, hs,
        get_bootstrap_agent_messages, hr]
    · intro agent vk
      simp [connection_update_state, hc, update_state_body, hnn, hmain, hfind, hs,
        get_bootstrap_agent_messages, hr]
  · intro s vk hs hr hb
    constructor
    · simp [connection_update_state, hc, update_state_body, hnn, hmain, hfind, hs,
        get_bootstrap_agent_messages, hr, hb]
    · intro agent vk2
      simp [connection_update_state, hc, update_state_body, hnn, hmain, hfind, hs,
        get_bootstrap_agent_messages, hr, hb]
  · intro s vk bootstrap_agent messages1 uid message connection2 hs hr hb hg hf2 hu ha
    refine ⟨?_, ?_, ?_⟩
    · simp [connection_update_state, hc, update_state_body, hnn, hmain, hfind, hs,
        get_bootstrap_agent_messages, hr, hb, hg, hf2, hu, ha]
    · simp [connection_update_state, hc, update_state_body, hnn, hmain, hfind, hs,
        get_bootstrap_agent_messages, hr, hb, hg, hf2, hu, ha]
    · simp only [connection_update_state, hc, update_state_body, hnn, hmain, hfind, hs,
        get_bootstrap_agent_messages, hr, hb, hg, hf2, hu, ha]
      exact storeLookup_update_self h connection connection2 cache.store hc

/-- Claim C7, witness: the fixture Inviter in Invited with an empty main inbox and one bootstrap message advances through the bootstrap fallback, acknowledging on the bootstrap agent. -/
theorem c7_witness :
    (connection_update_state envBootstrapMsg cacheInvited 1).1 = .ok SUCCESS ∧
    (connection_update_state envBootstrapMsg cacheInvited 1).2.2 =
      [.polledMain connInviterInvited.agent_info, .polledBootstrap aiFix "REMOTEVK",
        .applied (.generic "request"), .acked aiFix "uid1"] ∧
    storeLookup 1 (connection_update_state envBootstrapMsg cacheInvited 1).2.1.store =
      some connInviterInvited := by
  have t := (c7_bootstrap_fallback envBootstrapMsg cacheInvited 1 connInviterInvited [] rfl rfl
    rfl rfl).2.2.2 (.invited invitedFix) "REMOTEVK" aiFix [("uid1", .generic "request")] "uid1"
    (.generic "request") connInviterInvited rfl rfl rfl rfl rfl rfl rfl
  exact t

/-- Claim C8: after release_all every handle is invalid: release on any handle of the drained cache returns InvalidConnectionHandle, and release on a handle absent from any cache returns InvalidConnectionHandle as well. -/
theorem c8_release_all_invalidates (cache : ConnCache) (h : Nat) :
    (connection_release (release_all cache) h).1 = .error .invalidConnectionHandle ∧
    (storeLookup h cache.store = none →
      (connection_release cache h).1 = .error .invalidConnectionHandle) := by
  constructor
  · simp [connection_release, release_all, ObjectCache.drain, ObjectCache.release, storeLookup,
      exceptOrErr]
  · intro hn
    simp [connection_release, ObjectCache.release, hn, exceptOrErr]

/-- Claim C8, witness: releasing handle 1 after draining the fixture cache fails with InvalidConnectionHandle, as does releasing a never-issued handle. -/
theorem c8_witness :
    (connection_release (release_all cacheNull) 1).1 = .error .invalidConnectionHandle ∧
    (connection_release cacheEmpty 5).1 = .error .invalidConnectionHandle :=
  ⟨(c8_release_all_invalidates cacheNull 1).1, (c8_release_all_invalidates cacheEmpty 5).2 rfl⟩

/-- Claim C9, counterexample: handle 1 is valid and its connection holds no invitation, yet get_invite_details returns InvalidConnectionHandle rather than ActionNotSupported, because the trailing or-combinator in src connection.rs replaces the error raised inside the closure. -/
theorem c9_counterexample :
    storeLookup 1 cacheNull.store = some connNull ∧
    Connection.get_invite_details connNull = none ∧
    connection_get_invite_details cacheNull 1 = .error .invalidConnectionHandle ∧
    connection_get_invite_details cacheNull 1 ≠ .error .actionNotSupported := by
  decide

/-- Claim C9, amended: get_invite_details on a valid handle whose connection has no invitation fails with InvalidConnectionHandle: the closure raises ActionNotSupported, but the trailing or-combinator rewrites every error to InvalidConnectionHandle, so this error does not surface unmodified. -/
theorem c9_invite_details_error (cache : ConnCache) (h : Nat) (connection : Connection)
    (hc : storeLookup h cache.store = some connection)
    (hi : connection.get_invite_details = none) :
    connection_get_invite_details cache h = .error .invalidConnectionHandle := by
  simp [connection_get_invite_details, ObjectCache.get, hc, hi, exceptOrErr]

/-- Claim C9, witness for the amended statement: the fixture Null connection at handle 1. -/
theorem c9_witness :
    connection_get_invite_details cacheNull 1 = .error .invalidConnectionHandle :=
  c9_invite_details_error cacheNull 1 connNull rfl rfl

/-- Claim C10: delete_connection always releases the local handle, because the release argument of the and-combinator is evaluated eagerly: whatever the agency-side delete does, the handle disappears from the cache, the call returns either SUCCESS or the DeleteConnection error, and a subsequent release reports InvalidConnectionHandle. -/
theorem c10_delete_always_releases (env : Env) (cache : ConnCache) (h : Nat)
    (connection : Connection)
    (hc : storeLookup h cache.store = some connection) :
    storeLookup h (delete_connection env cache h).2.store = none ∧
    ((delete_connection env cache h).1 = .ok SUCCESS ∨
      (delete_connection env cache h).1 = .error .deleteConnection) ∧
    (env.delete connection = .ok () → (delete_connection env cache h).1 = .ok SUCCESS) ∧
    (∀ e, env.delete connection = .error e →
      (delete_connection env cache h).1 = .error .deleteConnection) ∧
    (connection_release (delete_connection env cache h).2 h).1 =
      .error .invalidConnectionHandle := by
  have hupd : storeLookup h (storeUpdate h connection cache.store) = some connection :=
    storeLookup_update_self h connection connection cache.store hc
  have hgone : ∀ d : VcxResult Unit,
      (delete_connection env cache h).2.store = storeRemove h (storeUpdate h connection cache.store) := by
    intro d
    cases hd : env.delete connection with
    | ok u =>
      simp [delete_connection, hc, connection_delete_body, hd, exceptOrErr, exceptAnd,
        connection_release, ObjectCache.release, hupd]
    | error e =>
      simp [delete_connection, hc, connection_delete_body, hd, exceptOrErr, exceptAnd,
        connection_release, ObjectCache.release, hupd]
  refine ⟨?_, ?_, ?_, ?_, ?_⟩
  · rw [hgone (.ok ())]
    exact storeLookup_remove_self h (storeUpdate h connection cache.store)
  · cases hd : env.delete connection with
    | ok u =>
      left
      simp [delete_connection, hc, connection_delete_body, hd, exceptOrErr, exceptAnd,
        connection_release, ObjectCache.release, hupd]
    | error e =>
      right
      simp [delete_connection, hc, connection_delete_body, hd, exceptOrErr, exceptAnd,
        connection_release, ObjectCache.release, hupd]
  · intro hd
    simp [delete_connection, hc, connection_delete_body, hd, exceptOrErr, exceptAnd,
      connection_release, ObjectCache.release, hupd]
  · intro e hd
    simp [delete_connection, hc, connection_delete_body, hd, exceptOrErr, exceptAnd,
      connection_release, ObjectCache.release, hupd]
  · have hnone : storeLookup h (delete_connection env cache h).2.store = none := by
      rw [hgone (.ok ())]
      exact storeLookup_remove_self h (storeUpdate h connection cache.store)
    simp [connection_release, ObjectCache.release, hnone, exceptOrErr]

/-- Claim C10, witness: deleting the fixture connection under a failing agency delete still removes the handle, returns the DeleteConnection error, and a later release reports InvalidConnectionHandle. -/
theorem c10_witness :
    storeLookup 1 (delete_connection envDeleteFail cacheNull 1).2.store = none ∧
    (delete_connection envDeleteFail cacheNull 1).1 = .error .deleteConnection ∧
    (connection_release (delete_connection envDeleteFail cacheNull 1).2 1).1 =
      .error .invalidConnectionHandle := by
  have t := c10_delete_always_releases envDeleteFail cacheNull 1 connNull rfl
  exact ⟨t.1, t.2.2.2.1 .agencyFailure rfl, t.2.2.2.2⟩
